import Mathlib

/-!
Verification of the authentication/authorization core of the Order_Reporting
repository (src/utils/user_management.py, src/dashboard/auth.py), shallowly
embedded in Lean 4.  Pure functions are translated directly; the Oracle
credential store is modelled as an explicit state record threaded through the
stateful operations; the bcrypt library (external to the repository) is
modelled by its contract: a salted blob whose verification needs only the
blob, erroring on malformed input.
-/

/- ### Hashing Service (src/utils/user_management.py lines 19-50)

bcrypt is an external library.  We model its blob format as
"$2b$12$" ++ salt ++ "$" ++ payload: `gensalt` becomes an explicit `salt`
argument, `hashpw` stores a payload that matches exactly the hashed password,
and `checkpw` raises (here: `Except.error`) on a blob that does not carry the
modelled format, mirroring bcrypt's ValueError on malformed/foreign blobs. -/

def bcryptHeader : List Char := ['$', '2', 'b', '$', '1', '2', '$']

def hash_password (password : String) (salt : Nat) : String :=
  String.mk bcryptHeader ++ toString salt ++ String.mk ['$'] ++ password

/-- Model of bcrypt.checkpw: errors on malformed blob, otherwise compares. -/
def checkpw (password blob : String) : Except String Bool :=
  match blob.toList with
  | '$' :: '2' :: 'b' :: '$' :: '1' :: '2' :: '$' :: rest =>
    match rest.dropWhile (fun c => c != '$') with
    | '$' :: payload => Except.ok (payload == password.toList)
    | _ => Except.error "Invalid salt"
  | _ => Except.error "Invalid hash format"

/-- src/utils/user_management.py lines 35-50: try/except around
bcrypt.checkpw; any exception is logged and the function returns False. -/
def verify_password (password password_hash : String) : Bool :=
  match checkpw password password_hash with
  | Except.ok b => b
  | Except.error _ => false

/- ### Password Policy (src/utils/user_management.py lines 53-99) -/

def specialChars : List Char :=
  ['!', '@', '#', '$', '%', '^', '&', '*', '(', ')', '_', '+', '-', '=',
   '[', ']', Char.ofNat 123, Char.ofNat 125, ';', ':', Char.ofNat 39,
   '"', ',', '.', '<', '>', '?', '/', '\\', '|', Char.ofNat 96, '~']

def lengthMsg : String := "Password must be at least 8 characters long"
def upperMsg : String := "Password must contain at least one uppercase letter"
def lowerMsg : String := "Password must contain at least one lowercase letter"
def digitMsg : String := "Password must contain at least one digit"
def specialMsg : String := "Password must contain at least one special character"

/-- src/utils/user_management.py lines 53-85. The regex classes [A-Z], [a-z]
are ASCII and match Char.isUpper/isLower; \d is modelled as an ASCII digit. -/
def validate_password_strength (password : String) : Bool × String :=
  if password.length < 8 then (false, lengthMsg)
  else if !(password.toList.any Char.isUpper) then (false, upperMsg)
  else if !(password.toList.any Char.isLower) then (false, lowerMsg)
  else if !(password.toList.any Char.isDigit) then (false, digitMsg)
  else if !(password.toList.any (fun c => specialChars.contains c)) then
    (false, specialMsg)
  else (true, "")

/-- The five policy rules, in the spec's fixed order
(length, uppercase, lowercase, digit, symbol), each with its reason. -/
def ruleTable : List ((String → Bool) × String) :=
  [ (fun p => decide (8 ≤ p.length), lengthMsg),
    (fun p => p.toList.any Char.isUpper, upperMsg),
    (fun p => p.toList.any Char.isLower, lowerMsg),
    (fun p => p.toList.any Char.isDigit, digitMsg),
    (fun p => p.toList.any (fun c => specialChars.contains c), specialMsg) ]

/-- Spec-side validator: return the reason of the first violated rule in the
fixed order, or ok when every rule holds (spec.md section 4.1). -/
def validateSpec (password : String) : Bool × String :=
  match ruleTable.find? (fun r => !(r.1 password)) with
  | some r => (false, r.2)
  | none => (true, "")

/- ### Authorization Engine (src/dashboard/auth.py lines 14-35)

The decorator's decision core: any(role in user_role_ids for role in
required_roles). -/

def role_check (user_role_ids : List String) (required_roles : List String) : Bool :=
  required_roles.any (fun role => user_role_ids.contains role)

/- ### Email format check (src/utils/user_management.py lines 88-99)

Model of re.match on ^[a-zA-Z0-9._%+-]+@[a-zA-Z0-9.-]+\.[a-zA-Z]\x7b2,\x7d$:
a full match decomposes the string as local ++ "@" ++ domain ++ "." ++ tld,
where the final dot must be the last dot (the tld class has letters only). -/

def isLocalChar (c : Char) : Bool :=
  c.isAlphanum || c == '.' || c == '_' || c == '%' || c == '+' || c == '-'

def isDomainChar (c : Char) : Bool :=
  c.isAlphanum || c == '.' || c == '-'

def validate_email (email : String) : Bool :=
  let cs := email.toList
  let localPart := cs.takeWhile (fun c => c != '@')
  match cs.dropWhile (fun c => c != '@') with
  | '@' :: domain =>
    let tld := (domain.reverse.takeWhile (fun c => c != '.')).reverse
    match domain.reverse.dropWhile (fun c => c != '.') with
    | '.' :: domRev =>
      let dom := domRev.reverse
      !localPart.isEmpty && localPart.all isLocalChar &&
      !dom.isEmpty && dom.all isDomainChar &&
      decide (2 ≤ tld.length) && tld.all Char.isAlpha
    | _ => false
  | _ => false

/- ### Credential store state

src/utils/user_management.py runs against Oracle tables users, roles,
user_roles and user_activity_log.  We model the store as an explicit record;
`available` is false when the connection raises oracledb.Error, in which case
each operation takes its except-branch (rollback and a generic failure
value).  Timestamps come from a `now` field standing for SYSTIMESTAMP. -/

structure UserRec where
  user_id : Nat
  username : String
  email : String
  password_hash : String
  first_name : String
  last_name : String
  is_active : Bool
  is_locked : Bool
  failed_login_attempts : Nat
  must_change_password : Bool
  password_changed_date : Option Nat
  last_login_date : Option Nat
  created_by : String
  modified_by : Option String
  deriving DecidableEq, Repr

structure RoleRec where
  role_id : String
  role_name : String
  description : String
  is_active : Bool
  deriving DecidableEq, Repr

structure RoleAssignmentRec where
  user_id : Nat
  role_id : String
  assigned_by : String
  deriving DecidableEq, Repr

structure ActivityRecord where
  user_id : Option Nat
  username : Option String
  activity_type : String
  activity_description : String
  ip_address : Option String
  user_agent : Option String
  success : Bool
  error_message : Option String
  deriving DecidableEq, Repr

structure DB where
  users : List UserRec
  roles : List RoleRec
  user_roles : List RoleAssignmentRec
  activity_log : List ActivityRecord
  next_user_id : Nat
  now : Nat
  available : Bool
  deriving DecidableEq, Repr

/-- SELECT ... FROM users WHERE username = :username, fetchone. -/
def findUser (db : DB) (username : String) : Option UserRec :=
  db.users.find? (fun u => u.username == username)

/-- SELECT ... FROM users WHERE user_id = :user_id, fetchone. -/
def findUserById (db : DB) (uid : Nat) : Option UserRec :=
  db.users.find? (fun u => u.user_id == uid)

/-- UPDATE users SET ... WHERE user_id = :user_id. -/
def updateUser (db : DB) (uid : Nat) (f : UserRec → UserRec) : DB :=
  { db with users := db.users.map (fun u => if u.user_id == uid then f u else u) }

/-- src/utils/user_management.py lines 603-646: INSERT into
user_activity_log on its own connection; any oracledb.Error is swallowed. -/
def log_user_activity (db : DB) (user_id : Option Nat) (username : Option String)
    (activity_type activity_description : String)
    (ip_address user_agent : Option String)
    (success : Bool) (error_message : Option String) : DB :=
  if db.available then
    { db with activity_log := db.activity_log ++
        [⟨user_id, username, activity_type, activity_description,
          ip_address, user_agent, success, error_message⟩] }
  else db

structure RoleInfo where
  role_id : String
  role_name : String
  description : String
  deriving DecidableEq, Repr

/-- SELECT r.* FROM roles r JOIN user_roles ur ... WHERE ur.user_id = :uid
AND r.is_active = 1 (src/utils/user_management.py lines 334-342). -/
def rolesFor (db : DB) (uid : Nat) : List RoleInfo :=
  (db.roles.filter (fun r => r.is_active &&
      db.user_roles.any (fun a => a.user_id == uid && a.role_id == r.role_id))).map
    (fun r => ⟨r.role_id, r.role_name, r.description⟩)

structure UserInfo where
  user_id : Nat
  username : String
  email : String
  first_name : String
  last_name : String
  roles : List RoleInfo
  must_change_password : Bool
  deriving DecidableEq, Repr

/-- src/utils/user_management.py lines 214-377 (authenticate_user).
All failures return None; the distinguishing reason lives only in the
activity-log record.  When the store is unavailable the oracledb.Error
branch returns None with the store untouched. -/
def authenticate_user (db : DB) (username password : String)
    (ip_address user_agent : Option String) : Option UserInfo × DB :=
  if !db.available then (none, db)
  else
    match findUser db username with
    | none =>
      (none, log_user_activity db none (some username) "LOGIN_FAILED"
        "User not found" ip_address user_agent false (some "User not found"))
    | some u =>
      if !u.is_active then
        (none, log_user_activity db (some u.user_id) (some username) "LOGIN_FAILED"
          "Account inactive" ip_address user_agent false (some "Account is inactive"))
      else if u.is_locked then
        (none, log_user_activity db (some u.user_id) (some username) "LOGIN_FAILED"
          "Account locked" ip_address user_agent false (some "Account is locked"))
      else if !verify_password password u.password_hash then
        let failed := u.failed_login_attempts + 1
        let lock := decide (5 ≤ failed)
        let db1 := updateUser db u.user_id
          (fun v => { v with failed_login_attempts := failed, is_locked := lock })
        (none, log_user_activity db1 (some u.user_id) (some username) "LOGIN_FAILED"
          ("Invalid password (Attempt " ++ toString failed ++ ")")
          ip_address user_agent false (some "Invalid password"))
      else
        let db1 := updateUser db u.user_id
          (fun v => { v with failed_login_attempts := 0, last_login_date := some db.now })
        let roles := rolesFor db1 u.user_id
        let db2 := log_user_activity db1 (some u.user_id) (some username) "LOGIN_SUCCESS"
          "User logged in successfully" ip_address user_agent true none
        (some ⟨u.user_id, u.username, u.email, u.first_name, u.last_name,
               roles, u.must_change_password⟩, db2)

/-- k consecutive Authenticate calls with the same credentials, threading the
store state from call to call. -/
def authsIter (db : DB) (username password : String) : Nat → DB
  | 0 => db
  | Nat.succ k =>
    (authenticate_user (authsIter db username password k) username password none none).2

/-- src/utils/user_management.py lines 380-465 (change_password).  The new
password strength is validated before the store is touched; on success the
UPDATE writes only password_hash, password_changed_date, must_change_password
and modified_date (it does NOT touch failed_login_attempts or is_locked).
bcrypt.gensalt is the explicit `salt` argument. -/
def change_password (db : DB) (user_id : Nat) (old_password new_password : String)
    (salt : Nat) : Bool × DB :=
  if !(validate_password_strength new_password).1 then (false, db)
  else if !db.available then (false, db)
  else
    match findUserById db user_id with
    | none => (false, db)
    | some u =>
      if !verify_password old_password u.password_hash then
        (false, log_user_activity db (some user_id) (some u.username)
          "PASSWORD_CHANGE_FAILED" "Invalid current password" none none false
          (some "Current password is incorrect"))
      else
        let new_hash := hash_password new_password salt
        let db1 := updateUser db user_id (fun v =>
          { v with password_hash := new_hash,
                   password_changed_date := some db.now,
                   must_change_password := false })
        (true, log_user_activity db1 (some user_id) (some u.username)
          "PASSWORD_CHANGED" "Password changed successfully" none none true none)

/-- The row lookup of reset_password: by username when given (Python
truthiness on the keyword arguments), else by user_id, else none. -/
def resolveReset (db : DB) (username : Option String) (user_id : Option Nat) :
    Option UserRec :=
  match username with
  | some un => findUser db un
  | none =>
    match user_id with
    | some uid => findUserById db uid
    | none => none

/-- src/utils/user_management.py lines 883-965: the second, effective
definition of reset_password (it shadows the one at lines 468-539, and is the
one the dashboard calls).  Sets must_change_password from its argument and
unconditionally zeroes failed_login_attempts and clears is_locked. -/
def reset_password (db : DB) (username : Option String) (user_id : Option Nat)
    (new_password : Option String) (changed_by : String)
    (must_change_password : Bool) (salt : Nat) : Bool × DB :=
  match new_password with
  | none => (false, db)
  | some np =>
    if !(validate_password_strength np).1 then (false, db)
    else if !db.available then (false, db)
    else
      match resolveReset db username user_id with
      | none => (false, db)
      | some u =>
        let new_hash := hash_password np salt
        let db1 := updateUser db u.user_id (fun v =>
          { v with password_hash := new_hash,
                   password_changed_date := some db.now,
                   must_change_password := must_change_password,
                   failed_login_attempts := 0,
                   is_locked := false,
                   modified_by := some changed_by })
        (true, log_user_activity db1 (some u.user_id) (some u.username)
          "PASSWORD_RESET" ("Password reset by " ++ changed_by) none none true none)

/-- INSERT INTO user_roles (user_id, role_id, assigned_by) VALUES (...). -/
def addAssignment (db : DB) (x : RoleAssignmentRec) : DB :=
  { db with user_roles := db.user_roles ++ [x] }

/-- src/utils/user_management.py lines 542-600 (assign_role).  The INSERT
into user_roles raises oracledb.IntegrityError when the (user_id, role_id)
pair already exists or the role id violates the foreign key; that branch
returns False with the store untouched (the failed INSERT is never
committed). -/
def assign_role (db : DB) (user_id : Nat) (role_id : String)
    (assigned_by : String) : Bool × DB :=
  if !db.available then (false, db)
  else
    match findUserById db user_id with
    | none => (false, db)
    | some u =>
      if db.user_roles.any (fun a => a.user_id == user_id && a.role_id == role_id)
          || !(db.roles.any (fun r => r.role_id == role_id)) then
        (false, db)
      else
        let db1 := addAssignment db ⟨user_id, role_id, assigned_by⟩
        (true, log_user_activity db1 (some user_id) (some u.username) "ROLE_ASSIGNED"
          ("Role " ++ role_id ++ " assigned by " ++ assigned_by) none none true none)

/-- The per-role INSERT inside create_user (lines 179-187): an
oracledb.IntegrityError (unknown role or duplicate pair) is caught, logged
as a warning and skipped. -/
def insertRoleAssign (created_by : String) (uid : Nat) (db : DB)
    (role_id : String) : DB :=
  if db.roles.any (fun r => r.role_id == role_id)
      && !(db.user_roles.any (fun a => a.user_id == uid && a.role_id == role_id)) then
    addAssignment db ⟨uid, role_id, created_by⟩
  else db

/-- INSERT INTO users ... RETURNING user_id. -/
def insertUser (db : DB) (u : UserRec) : DB :=
  { db with users := db.users ++ [u], next_user_id := db.next_user_id + 1 }

/-- src/utils/user_management.py lines 102-211 (create_user).  The duplicate
username and duplicate email checks return None before anything is inserted.
is_active/is_locked/failed_login_attempts come from the table's column
defaults (active, unlocked, zero). -/
def create_user (db : DB) (username email password first_name last_name : String)
    (roles : List String) (created_by : String) (must_change_password : Bool)
    (salt : Nat) : Option Nat × DB :=
  if username == "" || email == "" || password == "" then (none, db)
  else if !validate_email email then (none, db)
  else if !(validate_password_strength password).1 then (none, db)
  else if !db.available then (none, db)
  else if db.users.any (fun u => u.username == username) then (none, db)
  else if db.users.any (fun u => u.email == email) then (none, db)
  else
    let uid := db.next_user_id
    let newUser : UserRec :=
      { user_id := uid, username := username, email := email,
        password_hash := hash_password password salt,
        first_name := first_name, last_name := last_name,
        is_active := true, is_locked := false, failed_login_attempts := 0,
        must_change_password := must_change_password,
        password_changed_date := none, last_login_date := none,
        created_by := created_by, modified_by := none }
    let db1 := insertUser db newUser
    let db2 := roles.foldl (insertRoleAssign created_by uid) db1
    (some uid, log_user_activity db2 (some uid) (some username) "USER_CREATED"
      ("User " ++ username ++ " created by " ++ created_by) none none true none)

/- ### Interleaving model of the failed-attempt read-modify-write (spec §5)

In authenticate_user the failed counter is SELECTed at lines 234-241 and the
UPDATE at lines 295-302 writes back a value computed in the client from that
snapshot.  A concurrent Authenticate call is therefore a pair of micro-steps
(read snapshot, write computed values), not one atomic store operation. -/

/-- The client-side computation between the SELECT and the UPDATE
(lines 292-293): new counter and lock flag from the snapshot. -/
def failedUpdateValues (snapshot : Nat) : Nat × Bool :=
  (snapshot + 1, decide (5 ≤ snapshot + 1))

/-- The UPDATE of lines 295-302 applied to a stored row: both fields are
written absolutely. -/
def applyFailedUpdate (u : UserRec) (vals : Nat × Bool) : UserRec :=
  { u with failed_login_attempts := vals.1, is_locked := vals.2 }

/-- n concurrent failed attempts scheduled so that every call performs its
SELECT before any call performs its UPDATE: every snapshot is the initial
counter. -/
def raceAllReadFirst (u : UserRec) : Nat → UserRec
  | 0 => u
  | Nat.succ k =>
    applyFailedUpdate (raceAllReadFirst u k) (failedUpdateValues u.failed_login_attempts)

/-- n failed attempts run one after the other: each SELECT sees the previous
UPDATE. -/
def seqFailedUpdates (u : UserRec) : Nat → UserRec
  | 0 => u
  | Nat.succ k =>
    let v := seqFailedUpdates u k
    applyFailedUpdate v (failedUpdateValues v.failed_login_attempts)

/- ### Concrete store fixtures used by the witness theorems -/

def uC1 : UserRec :=
  { user_id := 1, username := "alice", email := "alice@example.com",
    password_hash := "$2b$12$7$Secret1", first_name := "Alice", last_name := "L",
    is_active := true, is_locked := false, failed_login_attempts := 0,
    must_change_password := false, password_changed_date := none,
    last_login_date := none, created_by := "SYSTEM", modified_by := none }

def dbC1 : DB :=
  { users := [uC1], roles := [], user_roles := [], activity_log := [],
    next_user_id := 2, now := 0, available := true }

def uC2 : UserRec :=
  { user_id := 1, username := "bob", email := "bob@example.com",
    password_hash := "$2b$12$3$OldSecret1!", first_name := "Bob", last_name := "M",
    is_active := true, is_locked := true, failed_login_attempts := 5,
    must_change_password := true, password_changed_date := none,
    last_login_date := none, created_by := "SYSTEM", modified_by := none }

def dbC2 : DB :=
  { users := [uC2], roles := [], user_roles := [], activity_log := [],
    next_user_id := 2, now := 7, available := true }

def dbC6down : DB :=
  { users := [uC1], roles := [], user_roles := [], activity_log := [],
    next_user_id := 2, now := 0, available := false }

def rAdmin : RoleRec :=
  { role_id := "ADMIN", role_name := "Administrator",
    description := "Full administrative access", is_active := true }

def dbC8 : DB :=
  { users := [uC1], roles := [rAdmin], user_roles := [], activity_log := [],
    next_user_id := 2, now := 0, available := true }

/-- C5: for every password violating at least one policy rule,
validate_password_strength returns not-ok with the reason of exactly the
first violated rule in the fixed order (length, uppercase, lowercase, digit,
symbol), and ok for every password satisfying all five rules. -/
theorem C5_first_failure_wins (p : String) :
    validate_password_strength p = validateSpec p := by
  unfold validate_password_strength validateSpec ruleTable
  simp only [List.find?]
  by_cases h1 : p.length < 8
  · rw [if_pos h1, decide_eq_false (Nat.not_le.mpr h1)]; rfl
  · rw [if_neg h1, decide_eq_true (Nat.not_lt.mp h1)]
    cases h2 : p.toList.any Char.isUpper <;>
    cases h3 : p.toList.any Char.isLower <;>
    cases h4 : p.toList.any Char.isDigit <;>
    cases h5 : p.toList.any (fun c => specialChars.contains c) <;>
      simp only [h2, h3, h4, h5, Bool.not_true, Bool.not_false] <;> rfl

/-- C3: the authorization check returns true iff the caller's granted role
set and the required role set intersect (ANY-of semantics); it is false for
an empty granted set and false for an empty required set. -/
theorem C3_any_of_semantics (granted required : List String) :
    (role_check granted required = true ↔ ∃ r, r ∈ granted ∧ r ∈ required) ∧
    role_check [] required = false ∧ role_check granted [] = false := by
  refine ⟨?_, ?_, ?_⟩
  · simp only [role_check, List.any_eq_true, List.elem_iff]
    constructor
    · rintro ⟨r, hreq, hg⟩; exact ⟨r, hg, hreq⟩
    · rintro ⟨r, hg, hreq⟩; exact ⟨r, hreq, hg⟩
  · simp [role_check]
  · simp [role_check]

/-- C7: password verification is total on malformed input: whenever the
underlying bcrypt check errors (malformed or foreign-format blob),
verify_password returns false instead of propagating the error. -/
theorem C7_verify_fails_closed (password blob msg : String)
    (h : checkpw password blob = Except.error msg) :
    verify_password password blob = false := by
  unfold verify_password
  rw [h]

/-- Witness for C7 at a concrete foreign-format blob. -/
theorem C7_verify_fails_closed_witness :
    checkpw "secret" "plainmd5deadbeef" = Except.error "Invalid hash format" ∧
    verify_password "secret" "plainmd5deadbeef" = false :=
  ⟨by rfl, C7_verify_fails_closed "secret" "plainmd5deadbeef"
      "Invalid hash format" (by rfl)⟩

/- ### Supporting lemmas about the store operations -/

theorem log_users (db : DB) (a : Option Nat) (b : Option String) (c d : String)
    (e f : Option String) (g : Bool) (h : Option String) :
    (log_user_activity db a b c d e f g h).users = db.users := by
  unfold log_user_activity; split <;> rfl

theorem log_available (db : DB) (a : Option Nat) (b : Option String) (c d : String)
    (e f : Option String) (g : Bool) (h : Option String) :
    (log_user_activity db a b c d e f g h).available = db.available := by
  unfold log_user_activity; split <;> rfl

theorem findUser_log (db : DB) (a : Option Nat) (b : Option String) (c d : String)
    (e f : Option String) (g : Bool) (h : Option String) (name : String) :
    findUser (log_user_activity db a b c d e f g h) name = findUser db name := by
  unfold findUser; rw [log_users]

theorem findUser_update (db : DB) (uid : Nat) (f : UserRec → UserRec)
    (hf : ∀ v, (f v).username = v.username) (name : String) :
    findUser (updateUser db uid f) name =
      Option.map (fun v => if v.user_id == uid then f v else v) (findUser db name) := by
  unfold findUser updateUser
  rw [List.find?_map]
  have hp : ((fun u : UserRec => u.username == name) ∘
      (fun v => if v.user_id == uid then f v else v)) =
      (fun v : UserRec => v.username == name) := by
    funext v
    by_cases h : v.user_id == uid <;> simp [Function.comp, h, hf]
  rw [hp]

theorem updateUser_available (db : DB) (uid : Nat) (f : UserRec → UserRec) :
    (updateUser db uid f).available = db.available := rfl

/-- One failed Authenticate call: returns None, increments the stored failed
counter, and sets the lock flag exactly when the new counter reaches 5. -/
theorem auth_fail_step (db : DB) (username password : String) (u : UserRec)
    (hav : db.available = true)
    (hfind : findUser db username = some u)
    (hact : u.is_active = true) (hlock : u.is_locked = false)
    (hpw : verify_password password u.password_hash = false) :
    (authenticate_user db username password none none).1 = none ∧
    findUser (authenticate_user db username password none none).2 username =
      some { u with failed_login_attempts := u.failed_login_attempts + 1,
                    is_locked := decide (5 ≤ u.failed_login_attempts + 1) } ∧
    (authenticate_user db username password none none).2.available = true := by
  unfold authenticate_user
  simp only [hav, hfind, hact, hlock, hpw, Bool.not_true, Bool.not_false,
    Bool.false_eq_true, if_false, if_true]
  refine ⟨trivial, ?_, ?_⟩
  · rw [findUser_log, findUser_update db u.user_id
      (fun v => { v with failed_login_attempts := u.failed_login_attempts + 1,
                         is_locked := decide (5 ≤ u.failed_login_attempts + 1) })
      (fun v => rfl) username, hfind]
    simp [hact]
  · rw [log_available, updateUser_available, hav]

/-- Authenticate against a locked principal: fails before the password is
even checked, with the "Account locked" activity record. -/
theorem auth_locked_step (db : DB) (username password : String) (u : UserRec)
    (hav : db.available = true) (hfind : findUser db username = some u)
    (hact : u.is_active = true) (hlock : u.is_locked = true) :
    authenticate_user db username password none none =
      (none, log_user_activity db (some u.user_id) (some username) "LOGIN_FAILED"
        "Account locked" none none false (some "Account is locked")) := by
  unfold authenticate_user
  simp only [hav, hfind, hact, hlock, Bool.not_true, Bool.not_false,
    Bool.false_eq_true, if_false, if_true]

/-- State after k consecutive failed Authenticate calls, k between 0 and 5:
the stored counter equals k and the lock flag is set exactly when k = 5. -/
theorem authsIter_fail_invariant (db : DB) (username wrongpw : String) (u : UserRec)
    (hav : db.available = true) (hfind : findUser db username = some u)
    (hact : u.is_active = true) (hlock : u.is_locked = false)
    (hcnt : u.failed_login_attempts = 0)
    (hpw : verify_password wrongpw u.password_hash = false) :
    ∀ k, k ≤ 5 →
      ∃ v, findUser (authsIter db username wrongpw k) username = some v ∧
        v.user_id = u.user_id ∧ v.is_active = true ∧
        v.password_hash = u.password_hash ∧
        v.failed_login_attempts = k ∧ v.is_locked = decide (5 ≤ k) ∧
        (authsIter db username wrongpw k).available = true := by
  intro k
  induction k with
  | zero =>
    intro _
    exact ⟨u, hfind, rfl, hact, rfl, hcnt, by rw [hlock]; rfl, hav⟩
  | succ k ih =>
    intro hk5
    obtain ⟨v, hvfind, hvid, hvact, hvhash, hvcnt, hvlock, hvav⟩ :=
      ih (Nat.le_of_succ_le hk5)
    have hklt : k < 5 := Nat.lt_of_succ_le hk5
    have hvlock' : v.is_locked = false := by
      rw [hvlock]; exact decide_eq_false (Nat.not_le.mpr hklt)
    have hvpw : verify_password wrongpw v.password_hash = false := by
      rw [hvhash]; exact hpw
    obtain ⟨-, hfind', hav'⟩ :=
      auth_fail_step (authsIter db username wrongpw k) username wrongpw v
        hvav hvfind hvact hvlock' hvpw
    refine ⟨_, hfind', by simp [hvid], by simp [hvact], by simp [hvhash],
      by simp [hvcnt], by simp [hvcnt], hav'⟩

/-- C1: starting from an active, unlocked principal with a zero failed
counter, five consecutive failed Authenticate calls leave the stored counter
at 5 with is_locked true (and for every k ≤ 5 the counter is k and the lock
flag holds exactly when k has reached the threshold 5); a further
Authenticate call with the CORRECT password then still fails, recording the
"Account locked" outcome. -/
theorem C1_lockout_after_five_failures (db : DB) (username wrongpw rightpw : String)
    (u : UserRec)
    (hav : db.available = true)
    (hfind : findUser db username = some u)
    (hact : u.is_active = true) (hlock : u.is_locked = false)
    (hcnt : u.failed_login_attempts = 0)
    (hwrong : verify_password wrongpw u.password_hash = false)
    (hright : verify_password rightpw u.password_hash = true) :
    (∀ k, k ≤ 5 →
      ∃ v, findUser (authsIter db username wrongpw k) username = some v ∧
        v.failed_login_attempts = k ∧ v.is_locked = decide (5 ≤ k)) ∧
    (∃ v, findUser (authsIter db username wrongpw 5) username = some v ∧
      v.is_locked = true ∧ v.failed_login_attempts = 5 ∧
      authenticate_user (authsIter db username wrongpw 5) username rightpw none none =
        (none, log_user_activity (authsIter db username wrongpw 5) (some v.user_id)
          (some username) "LOGIN_FAILED" "Account locked" none none false
          (some "Account is locked"))) := by
  have hinv := authsIter_fail_invariant db username wrongpw u
    hav hfind hact hlock hcnt hwrong
  constructor
  · intro k hk
    obtain ⟨v, h1, -, -, -, h5, h6, -⟩ := hinv k hk
    exact ⟨v, h1, h5, h6⟩
  · obtain ⟨v, h1, -, h3, -, h5, h6, h7⟩ := hinv 5 (Nat.le_refl 5)
    have hvlock : v.is_locked = true := by rw [h6]; rfl
    exact ⟨v, h1, hvlock, h5,
      auth_locked_step (authsIter db username wrongpw 5) username rightpw v
        h7 h1 h3 hvlock⟩

/-- Witness for C1 at a concrete one-user store. -/
theorem C1_lockout_after_five_failures_witness :
    (dbC1.available = true ∧ findUser dbC1 "alice" = some uC1 ∧
     uC1.is_active = true ∧ uC1.is_locked = false ∧
     uC1.failed_login_attempts = 0 ∧
     verify_password "wrongpw" uC1.password_hash = false ∧
     verify_password "Secret1" uC1.password_hash = true) ∧
    ((∀ k, k ≤ 5 →
      ∃ v, findUser (authsIter dbC1 "alice" "wrongpw" k) "alice" = some v ∧
        v.failed_login_attempts = k ∧ v.is_locked = decide (5 ≤ k)) ∧
    (∃ v, findUser (authsIter dbC1 "alice" "wrongpw" 5) "alice" = some v ∧
      v.is_locked = true ∧ v.failed_login_attempts = 5 ∧
      authenticate_user (authsIter dbC1 "alice" "wrongpw" 5) "alice" "Secret1" none none =
        (none, log_user_activity (authsIter dbC1 "alice" "wrongpw" 5) (some v.user_id)
          (some "alice") "LOGIN_FAILED" "Account locked" none none false
          (some "Account is locked")))) :=
  ⟨⟨rfl, by decide, rfl, rfl, rfl, by decide, by decide⟩,
   C1_lockout_after_five_failures dbC1 "alice" "wrongpw" "Secret1" uC1
     rfl (by decide) rfl rfl rfl (by decide) (by decide)⟩

theorem log_user_roles (db : DB) (a : Option Nat) (b : Option String) (c d : String)
    (e f : Option String) (g : Bool) (h : Option String) :
    (log_user_activity db a b c d e f g h).user_roles = db.user_roles := by
  unfold log_user_activity; split <;> rfl

theorem log_roles (db : DB) (a : Option Nat) (b : Option String) (c d : String)
    (e f : Option String) (g : Bool) (h : Option String) :
    (log_user_activity db a b c d e f g h).roles = db.roles := by
  unfold log_user_activity; split <;> rfl

theorem findUserById_log (db : DB) (a : Option Nat) (b : Option String) (c d : String)
    (e f : Option String) (g : Bool) (h : Option String) (uid : Nat) :
    findUserById (log_user_activity db a b c d e f g h) uid = findUserById db uid := by
  unfold findUserById; rw [log_users]

/-- C2 (amended): a successful ChangePassword stores the new hash, stamps the
change date and clears must_change_password, and changes NOTHING else on the
row: in particular failed_login_attempts and is_locked keep their prior
values (the UPDATE at lines 434-441 does not touch them). -/
theorem C2_change_password_keeps_lock_state (db : DB) (uid : Nat) (old np : String)
    (salt : Nat)
    (h : (change_password db uid old np salt).1 = true) :
    (change_password db uid old np salt).2.users =
      db.users.map (fun v => if v.user_id == uid then
        { v with password_hash := hash_password np salt,
                 password_changed_date := some db.now,
                 must_change_password := false } else v) := by
  unfold change_password at h ⊢
  cases e1 : (validate_password_strength np).1 with
  | false => simp [e1] at h
  | true =>
    cases e2 : db.available with
    | false => simp [e1, e2] at h
    | true =>
      cases e3 : findUserById db uid with
      | none => simp [e1, e2, e3] at h
      | some u =>
        cases e4 : verify_password old u.password_hash with
        | false => simp [e1, e2, e3, e4] at h
        | true =>
          simp only [e1, e2, e3, e4, Bool.not_true, Bool.not_false,
            Bool.false_eq_true, if_false, if_true]
          rw [log_users]
          rfl

/-- Counterexample to C2 as stated: a locked principal with a failed counter
of 5 changes its password successfully, yet afterwards the stored row still
has failed_login_attempts = 5 and is_locked = true (the claim says they are
reset/cleared). -/
theorem C2_counterexample_lock_not_cleared :
    (change_password dbC2 1 "OldSecret1!" "NewSecret2!" 9).1 = true ∧
    Option.map (fun u => (u.failed_login_attempts, u.is_locked))
      (findUserById (change_password dbC2 1 "OldSecret1!" "NewSecret2!" 9).2 1) =
      some (5, true) := by
  decide

/-- Witness for the amended C2 at a concrete store. -/
theorem C2_change_password_keeps_lock_state_witness :
    (change_password dbC2 1 "OldSecret1!" "NewSecret2!" 9).1 = true ∧
    (change_password dbC2 1 "OldSecret1!" "NewSecret2!" 9).2.users =
      dbC2.users.map (fun v => if v.user_id == 1 then
        { v with password_hash := hash_password "NewSecret2!" 9,
                 password_changed_date := some dbC2.now,
                 must_change_password := false } else v) :=
  ⟨by decide, C2_change_password_keeps_lock_state dbC2 1 "OldSecret1!" "NewSecret2!" 9
    (by decide)⟩

/-- C4: a successful administrative ResetPassword (the effective definition,
lines 883-965) rewrites the resolved principal's row with
failed_login_attempts = 0, is_locked = false and must_change_password equal
to the caller's argument, for every prior lock/counter state. -/
theorem C4_reset_clears_lock_and_counter (db : DB) (username : Option String)
    (user_id : Option Nat) (np changed_by : String) (mc : Bool) (salt : Nat)
    (h : (reset_password db username user_id (some np) changed_by mc salt).1 = true) :
    ∃ u, resolveReset db username user_id = some u ∧
      (reset_password db username user_id (some np) changed_by mc salt).2.users =
        db.users.map (fun v => if v.user_id == u.user_id then
          { v with password_hash := hash_password np salt,
                   password_changed_date := some db.now,
                   must_change_password := mc,
                   failed_login_attempts := 0,
                   is_locked := false,
                   modified_by := some changed_by } else v) := by
  unfold reset_password at h ⊢
  cases e1 : (validate_password_strength np).1 with
  | false => simp [e1] at h
  | true =>
    cases e2 : db.available with
    | false => simp [e1, e2] at h
    | true =>
      cases e3 : resolveReset db username user_id with
      | none => simp [e1, e2, e3] at h
      | some u =>
        refine ⟨u, rfl, ?_⟩
        simp only [e1, e2, e3, Bool.not_true, Bool.not_false,
          Bool.false_eq_true, if_false, if_true]
        rw [log_users]
        rfl

/-- Witness for C4: resetting the locked, counter-5 principal of dbC2 with
must-change = false. -/
theorem C4_reset_clears_lock_and_counter_witness :
    (reset_password dbC2 (some "bob") none (some "NewSecret2!") "admin" false 4).1
      = true ∧
    ∃ u, resolveReset dbC2 (some "bob") none = some u ∧
      (reset_password dbC2 (some "bob") none (some "NewSecret2!") "admin" false 4).2.users =
        dbC2.users.map (fun v => if v.user_id == u.user_id then
          { v with password_hash := hash_password "NewSecret2!" 4,
                   password_changed_date := some dbC2.now,
                   must_change_password := false,
                   failed_login_attempts := 0,
                   is_locked := false,
                   modified_by := some "admin" } else v) :=
  ⟨by decide, C4_reset_clears_lock_and_counter dbC2 (some "bob") none "NewSecret2!"
    "admin" false 4 (by decide)⟩

/-- C6 (amended): a persistence failure (store unavailable) inside
Authenticate, ChangePassword or ResetPassword is caught by the oracledb.Error
handler and collapsed into the SAME generic failure value that ordinary
validation failures produce (None resp. False), with the store unchanged;
there is no distinct persistence-failure outcome in any return type. -/
theorem C6_store_failure_collapsed (db : DB) (username password : String)
    (ip ua : Option String) (uid : Nat) (old np : String) (salt : Nat)
    (un2 : Option String) (uid2 : Option Nat) (np2 : Option String)
    (cb : String) (mc : Bool) (salt2 : Nat)
    (h : db.available = false) :
    authenticate_user db username password ip ua = (none, db) ∧
    change_password db uid old np salt = (false, db) ∧
    reset_password db un2 uid2 np2 cb mc salt2 = (false, db) := by
  refine ⟨?_, ?_, ?_⟩
  · unfold authenticate_user; simp [h]
  · unfold change_password
    cases e1 : (validate_password_strength np).1 <;> simp [e1, h]
  · unfold reset_password
    cases np2 with
    | none => rfl
    | some v =>
      cases e1 : (validate_password_strength v).1 <;> simp [e1, h]

/-- Counterexample to C6 as stated: with the store down, Authenticate with
the CORRECT password returns None — exactly the value that an ordinary
wrong-password failure returns with the store up; likewise ChangePassword
returns False in both situations.  The persistence failure is therefore not
surfaced as a distinct outcome. -/
theorem C6_counterexample_not_distinct :
    authenticate_user dbC6down "alice" "Secret1" none none = (none, dbC6down) ∧
    (authenticate_user dbC1 "alice" "WrongPass1!" none none).1 = none ∧
    change_password dbC6down 1 "Secret1" "NewSecret2!" 9 = (false, dbC6down) ∧
    (change_password dbC1 1 "WrongOld1!" "NewSecret2!" 9).1 = false := by
  decide

/-- Witness for the amended C6 at a concrete unavailable store. -/
theorem C6_store_failure_collapsed_witness :
    dbC6down.available = false ∧
    (authenticate_user dbC6down "alice" "Secret1" none none = (none, dbC6down) ∧
     change_password dbC6down 1 "Secret1" "NewSecret2!" 9 = (false, dbC6down) ∧
     reset_password dbC6down (some "alice") none (some "NewSecret2!") "admin" true 3 =
       (false, dbC6down)) :=
  ⟨rfl, C6_store_failure_collapsed dbC6down "alice" "Secret1" none none 1 "Secret1"
    "NewSecret2!" 9 (some "alice") none (some "NewSecret2!") "admin" true 3 rfl⟩

theorem addAssignment_users (db : DB) (x : RoleAssignmentRec) :
    (addAssignment db x).users = db.users := rfl

theorem addAssignment_available (db : DB) (x : RoleAssignmentRec) :
    (addAssignment db x).available = db.available := rfl

theorem addAssignment_user_roles (db : DB) (x : RoleAssignmentRec) :
    (addAssignment db x).user_roles = db.user_roles ++ [x] := rfl

theorem findUserById_addAssignment (db : DB) (x : RoleAssignmentRec) (uid : Nat) :
    findUserById (addAssignment db x) uid = findUserById db uid := rfl

/-- AssignRole on a pair that is already present returns False and leaves
the store untouched (IntegrityError branch, lines 590-592). -/
theorem assign_role_duplicate (d : DB) (uid : Nat) (rid b : String) (u : UserRec)
    (hav : d.available = true) (hfound : findUserById d uid = some u)
    (hdup : d.user_roles.any (fun a => a.user_id == uid && a.role_id == rid) = true) :
    assign_role d uid rid b = (false, d) := by
  unfold assign_role
  simp [hav, hfound, hdup]

/-- A successful AssignRole appends exactly one assignment record and changes
nothing else in the users/roles tables or availability. -/
theorem assign_role_success_state (db : DB) (uid : Nat) (rid b1 : String)
    (h : (assign_role db uid rid b1).1 = true) :
    (assign_role db uid rid b1).2.available = db.available ∧
    (assign_role db uid rid b1).2.users = db.users ∧
    (assign_role db uid rid b1).2.user_roles = db.user_roles ++ [⟨uid, rid, b1⟩] ∧
    db.user_roles.any (fun a => a.user_id == uid && a.role_id == rid) = false := by
  unfold assign_role at h ⊢
  cases e1 : db.available with
  | false => simp [e1] at h
  | true =>
    cases e2 : findUserById db uid with
    | none => simp [e1, e2] at h
    | some u =>
      cases e3 : (db.user_roles.any (fun a => a.user_id == uid && a.role_id == rid)
          || !(db.roles.any (fun r => r.role_id == rid))) with
      | true => simp [e1, e2, e3] at h
      | false =>
        have hdup : db.user_roles.any
            (fun a => a.user_id == uid && a.role_id == rid) = false :=
          (Bool.or_eq_false_iff.mp e3).1
        simp only [e1, e2, e3, Bool.not_true, Bool.not_false, Bool.false_eq_true,
          if_false, if_true]
        exact ⟨by rw [log_available, addAssignment_available]; exact e1,
               by rw [log_users, addAssignment_users],
               by rw [log_user_roles, addAssignment_user_roles],
               hdup⟩

/-- C8: after a successful AssignRole, assigning the same (principal, role)
pair again returns the no-op failure value (False, distinct from success)
and leaves the store exactly as it was after the first call — with exactly
one assignment record for that pair. -/
theorem C8_reassign_is_noop (db : DB) (uid : Nat) (rid b1 b2 : String)
    (h : (assign_role db uid rid b1).1 = true) :
    assign_role (assign_role db uid rid b1).2 uid rid b2 =
      (false, (assign_role db uid rid b1).2) ∧
    ((assign_role db uid rid b1).2.user_roles.filter
      (fun a => a.user_id == uid && a.role_id == rid)).length = 1 := by
  obtain ⟨hav, husers, hroles, hdup⟩ := assign_role_success_state db uid rid b1 h
  have hnil : db.user_roles.filter
      (fun a => a.user_id == uid && a.role_id == rid) = [] :=
    List.filter_eq_nil_iff.mpr
      (fun a ha => by simpa using List.any_eq_false.mp hdup a ha)
  constructor
  · cases e2 : findUserById db uid with
    | none =>
      exfalso
      unfold assign_role at h
      cases e1 : db.available with
      | false => simp [e1] at h
      | true => simp [e1, e2] at h
    | some u =>
      refine assign_role_duplicate _ uid rid b2 u ?_ ?_ ?_
      · rw [hav]
        unfold assign_role at h
        cases e1 : db.available with
        | false => simp [e1] at h
        | true => rfl
      · unfold findUserById at e2 ⊢
        rw [husers]
        exact e2
      · rw [hroles]
        simp [List.any_append]
  · rw [hroles, List.filter_append, hnil]
    simp

/-- Witness for C8 at a concrete store with one user and the ADMIN role. -/
theorem C8_reassign_is_noop_witness :
    (assign_role dbC8 1 "ADMIN" "root").1 = true ∧
    (assign_role (assign_role dbC8 1 "ADMIN" "root").2 1 "ADMIN" "root2" =
      (false, (assign_role dbC8 1 "ADMIN" "root").2) ∧
    ((assign_role dbC8 1 "ADMIN" "root").2.user_roles.filter
      (fun a => a.user_id == 1 && a.role_id == "ADMIN")).length = 1) :=
  ⟨by decide, C8_reassign_is_noop dbC8 1 "ADMIN" "root" "root2" (by decide)⟩

/-- C9 (amended): the failed-attempt step is NOT one atomic read-modify-write.
The SELECT of authenticate_user reads the counter once and the UPDATE writes
back values computed in the client from that snapshot
(applyFailedUpdate/failedUpdateValues); run one after another, n failed
attempts raise the counter by n, but under the interleaving in which all n
concurrent calls perform their SELECT before any performs its UPDATE, the
final counter is the initial counter + 1 irrespective of n (all increments
but one are lost) and the lock triggers only if that single increment
reaches 5. -/
theorem C9_failed_attempt_rmw_not_atomic (db : DB) (username password : String)
    (u : UserRec) (n : Nat)
    (hav : db.available = true) (hfind : findUser db username = some u)
    (hact : u.is_active = true) (hlock : u.is_locked = false)
    (hpw : verify_password password u.password_hash = false)
    (hn : 1 ≤ n) :
    findUser (authenticate_user db username password none none).2 username =
      some (applyFailedUpdate u (failedUpdateValues u.failed_login_attempts)) ∧
    (raceAllReadFirst u n).failed_login_attempts = u.failed_login_attempts + 1 ∧
    (raceAllReadFirst u n).is_locked = decide (5 ≤ u.failed_login_attempts + 1) ∧
    (seqFailedUpdates u n).failed_login_attempts = u.failed_login_attempts + n := by
  have hseq : ∀ m, (seqFailedUpdates u m).failed_login_attempts =
      u.failed_login_attempts + m := by
    intro m
    induction m with
    | zero => rfl
    | succ k ih =>
      show (seqFailedUpdates u k).failed_login_attempts + 1 =
        u.failed_login_attempts + (k + 1)
      rw [ih, Nat.add_assoc]
  obtain ⟨k, rfl⟩ : ∃ k, n = k + 1 :=
    ⟨n - 1, (Nat.succ_pred_eq_of_pos hn).symm⟩
  exact ⟨(auth_fail_step db username password u hav hfind hact hlock hpw).2.1,
    rfl, rfl, hseq (k + 1)⟩

/-- Counterexample to C9 as stated: starting from a zero counter, 6
concurrent failed attempts scheduled all-reads-first leave a final counter
of 1 (not 6) and never lock the account — the read-modify-write of
authenticate_user (SELECT at lines 234-241, client-side increment, UPDATE at
lines 295-302) admits lost updates, so the lock does not trigger at the true
aggregate count. -/
theorem C9_counterexample_lost_update :
    (raceAllReadFirst uC1 6).failed_login_attempts = 1 ∧
    (raceAllReadFirst uC1 6).is_locked = false := by
  decide

/-- Witness for the amended C9 at the concrete one-user store. -/
theorem C9_failed_attempt_rmw_not_atomic_witness :
    (dbC1.available = true ∧ findUser dbC1 "alice" = some uC1 ∧
     uC1.is_active = true ∧ uC1.is_locked = false ∧
     verify_password "WrongPass1!" uC1.password_hash = false ∧ 1 ≤ 6) ∧
    (findUser (authenticate_user dbC1 "alice" "WrongPass1!" none none).2 "alice" =
      some (applyFailedUpdate uC1 (failedUpdateValues uC1.failed_login_attempts)) ∧
    (raceAllReadFirst uC1 6).failed_login_attempts = uC1.failed_login_attempts + 1 ∧
    (raceAllReadFirst uC1 6).is_locked = decide (5 ≤ uC1.failed_login_attempts + 1) ∧
    (seqFailedUpdates uC1 6).failed_login_attempts = uC1.failed_login_attempts + 6) :=
  ⟨⟨rfl, by decide, rfl, rfl, by decide, by decide⟩,
   C9_failed_attempt_rmw_not_atomic dbC1 "alice" "WrongPass1!" uC1 6
     rfl (by decide) rfl rfl (by decide) (by decide)⟩

/-- C10: create_user with a username or email that already belongs to an
existing user returns None and leaves the whole store unchanged — no user
row and no role assignment is inserted. -/
theorem C10_duplicate_user_rejected (db : DB)
    (username email password fn ln : String) (roles : List String)
    (cb : String) (mc : Bool) (salt : Nat)
    (h : db.users.any (fun u => u.username == username) = true ∨
         db.users.any (fun u => u.email == email) = true) :
    create_user db username email password fn ln roles cb mc salt = (none, db) := by
  unfold create_user
  rcases h with h | h <;> simp [h]

/-- Witness for C10: creating a second "alice" (same username), and a user
with alice's email, both fail and leave the store as it was. -/
theorem C10_duplicate_user_rejected_witness :
    (dbC1.users.any (fun u => u.username == "alice") = true ∨
     dbC1.users.any (fun u => u.email == "other@example.com") = true) ∧
    create_user dbC1 "alice" "other@example.com" "GoodPass1!" "A" "B" []
      "SYSTEM" false 3 = (none, dbC1) :=
  ⟨Or.inl (by decide),
   C10_duplicate_user_rejected dbC1 "alice" "other@example.com" "GoodPass1!"
     "A" "B" [] "SYSTEM" false 3 (Or.inl (by decide))⟩
